import Mathlib

/-!
Verification development for the Yamu repository: a shallow embedding of the
MCP client (McpTests/mcp_client.py) together with a model of the MCP Server /
Editor State Coordinator described by the design document, and proofs of the
behavioural properties the test suite asserts.

String primitives mirror the Python ones over the character list of a string,
so every definition is executable and every property can be checked on
concrete inputs.
-/

/-- Length of a string in characters, mirroring Python len. -/
def strLen (s : String) : Nat := s.data.length

/-- The first n characters of a string, mirroring Python slicing s[:n]. -/
def strTake (s : String) (n : Nat) : String := String.mk (s.data.take n)

/-- Substring test, mirroring the Python expression needle in hay. -/
def strContains (hay needle : String) : Bool := decide (needle.data <:+: hay.data)

/-- Lower-casing, mirroring Python str.lower. -/
def strToLower (s : String) : String := String.mk (s.data.map Char.toLower)

/-- Whitespace stripping at both ends, mirroring Python str.strip. -/
def strStrip (s : String) : String :=
  String.mk (((s.data.dropWhile Char.isWhitespace).reverse.dropWhile
    Char.isWhitespace).reverse)

/-- A JSON value, the shape of every message the client and server exchange. -/
inductive Json where
  | null
  | bool (b : Bool)
  | num (n : Int)
  | str (s : String)
  | arr (elems : List Json)
  | obj (fields : List (String × Json))

/-- Membership test for a key of a JSON object, mirroring Python k in d. -/
def jsonHasKey : Json → String → Bool
  | Json.obj fields, k => fields.any (fun p => p.1 == k)
  | _, _ => false

/-- Lookup of a key in a JSON object, mirroring Python d[k] / d.get(k). -/
def jsonLookup : Json → String → Option Json
  | Json.obj fields, k => (fields.find? (fun p => p.1 == k)).map Prod.snd
  | _, _ => none

theorem jsonHasKey_iff_lookup (j : Json) (k : String) :
    jsonHasKey j k = true ↔ ∃ v, jsonLookup j k = some v := by
  cases j with
  | obj fields =>
    show fields.any (fun p => p.1 == k) = true ↔
      ∃ v, (fields.find? (fun p => p.1 == k)).map Prod.snd = some v
    rw [List.any_eq_true]
    constructor
    · rintro ⟨p, hp, hk⟩
      have hs : (fields.find? (fun q => q.1 == k)).isSome := by
        rw [List.find?_isSome]
        exact ⟨p, hp, hk⟩
      rcases Option.isSome_iff_exists.mp hs with ⟨q, hq⟩
      exact ⟨q.2, by rw [hq]; rfl⟩
    · rintro ⟨v, hv⟩
      rcases Option.map_eq_some'.mp hv with ⟨q, hq, _⟩
      have hq2 := List.find?_some hq
      exact ⟨q, List.mem_of_find?_eq_some hq, hq2⟩
  | null => simp [jsonHasKey, jsonLookup]
  | bool b => simp [jsonHasKey, jsonLookup]
  | num n => simp [jsonHasKey, jsonLookup]
  | str s => simp [jsonHasKey, jsonLookup]
  | arr elems => simp [jsonHasKey, jsonLookup]

theorem jsonHasKey_false_iff_lookup (j : Json) (k : String) :
    jsonHasKey j k = false ↔ jsonLookup j k = none := by
  rw [← Option.not_isSome_iff_eq_none]
  rw [Option.isSome_iff_exists]
  rw [← jsonHasKey_iff_lookup]
  cases jsonHasKey j k <;> simp

/-- Embedding of the tail of MCPClient._send_request (mcp_client.py): the
received line is stripped, an empty line raises, a parsed response carrying
an error member raises with the MCP error text, and otherwise the parsed
response is returned. The Python json.loads call and the Python repr of the
error member are abstracted as the parameters jsonLoads and pyRepr. -/
def sendRequestReadResponse (pyRepr : Json → String)
    (jsonLoads : String → Option Json) (responseLine : String) : Except String Json :=
  let responseData := strStrip responseLine
  if responseData = "" then
    Except.error "Empty response from MCP server"
  else
    match jsonLoads responseData with
    | none => Except.error "json.JSONDecodeError"
    | some response =>
      match jsonLookup response "error" with
      | some err => Except.error ("MCP error: " ++ pyRepr err)
      | none => Except.ok response

/-- The tool catalog exposed by the server. -/
def yamuToolNames : List String :=
  ["compile_and_wait", "run_tests", "refresh_assets", "editor_status",
   "compile_status", "test_status", "tests_cancel"]

/-- A JSON-RPC error object. -/
structure RpcError where
  code : Int
  message : String

/-- Modelled from the spec: the server handler for the method initialize,
which is not part of the repository sources (only its tests are). It must
validate presence of protocolVersion, yielding -32602 with message
"protocolVersion is required" when absent, and otherwise answer with
protocolVersion, capabilities.tools and serverInfo name YamuServer
version 1.0.0. -/
def initHandler (params : Json) : Except RpcError Json :=
  match jsonLookup params "protocolVersion" with
  | none =>
      Except.error { code := -32602, message := "protocolVersion is required" }
  | some pv =>
      Except.ok (Json.obj
        [("protocolVersion", pv),
         ("capabilities", Json.obj [("tools", Json.arr (yamuToolNames.map Json.str))]),
         ("serverInfo", Json.obj
            [("name", Json.str "YamuServer"), ("version", Json.str "1.0.0")])])

/-- C10: for every response line received by MCPClient._send_request, the
method raises when the stripped line is empty or when the parsed response
contains an error member, and returns the parsed response otherwise; every
returned response therefore contains no error key. -/
theorem sendRequest_returns_no_error_member
    (pyRepr : Json → String) (jsonLoads : String → Option Json) (line : String) :
    (strStrip line = "" →
       sendRequestReadResponse pyRepr jsonLoads line =
         Except.error "Empty response from MCP server") ∧
    (∀ resp, strStrip line ≠ "" → jsonLoads (strStrip line) = some resp →
       jsonHasKey resp "error" = true →
       ∃ e, jsonLookup resp "error" = some e ∧
         sendRequestReadResponse pyRepr jsonLoads line =
           Except.error ("MCP error: " ++ pyRepr e)) ∧
    (∀ r, sendRequestReadResponse pyRepr jsonLoads line = Except.ok r →
       jsonLoads (strStrip line) = some r ∧ jsonHasKey r "error" = false) := by
  refine ⟨?_, ?_, ?_⟩
  · intro h
    simp [sendRequestReadResponse, h]
  · intro resp hne hload hkey
    rcases (jsonHasKey_iff_lookup resp "error").mp hkey with ⟨e, he⟩
    refine ⟨e, he, ?_⟩
    simp [sendRequestReadResponse, hne, hload, he]
  · intro r hr
    by_cases hempty : strStrip line = ""
    · simp [sendRequestReadResponse, hempty] at hr
    · cases hload : jsonLoads (strStrip line) with
      | none => simp [sendRequestReadResponse, hempty, hload] at hr
      | some resp =>
        cases hlook : jsonLookup resp "error" with
        | some e => simp [sendRequestReadResponse, hempty, hload, hlook] at hr
        | none =>
          simp [sendRequestReadResponse, hempty, hload, hlook] at hr
          subst hr
          exact ⟨rfl, (jsonHasKey_false_iff_lookup resp "error").mpr hlook⟩

theorem sendRequest_returns_no_error_member_witness :
    sendRequestReadResponse (fun _ => "") (fun _ => none) "" =
      Except.error "Empty response from MCP server" ∧
    jsonHasKey (Json.obj [("result", Json.null)]) "error" = false := by
  constructor
  · exact (sendRequest_returns_no_error_member (fun _ => "") (fun _ => none) "").1 rfl
  · exact ((sendRequest_returns_no_error_member (fun _ => "")
      (fun _ => some (Json.obj [("result", Json.null)])) "x").2.2
      (Json.obj [("result", Json.null)]) rfl).2

/-- C8: the initialize handler rejects params lacking protocolVersion with a
-32602 error whose message contains "protocolVersion is required", and for
params carrying a protocolVersion answers with protocolVersion,
capabilities.tools including compile_and_wait and run_tests, and serverInfo
name YamuServer version 1.0.0. -/
theorem initHandler_contract (params : Json) :
    (jsonLookup params "protocolVersion" = none →
       initHandler params =
         Except.error { code := -32602, message := "protocolVersion is required" }) ∧
    (∀ e, initHandler params = Except.error e →
       e.code = -32602 ∧ strContains e.message "protocolVersion is required" = true) ∧
    (∀ pv, jsonLookup params "protocolVersion" = some pv →
       ∃ r, initHandler params = Except.ok r ∧
         jsonLookup r "protocolVersion" = some pv ∧
         jsonLookup r "capabilities" =
           some (Json.obj [("tools", Json.arr (yamuToolNames.map Json.str))]) ∧
         jsonLookup r "serverInfo" =
           some (Json.obj [("name", Json.str "YamuServer"),
                           ("version", Json.str "1.0.0")]) ∧
         "compile_and_wait" ∈ yamuToolNames ∧ "run_tests" ∈ yamuToolNames) := by
  refine ⟨?_, ?_, ?_⟩
  · intro h
    simp [initHandler, h]
  · intro e he
    cases hk : jsonLookup params "protocolVersion" with
    | none =>
      simp [initHandler, hk] at he
      subst he
      exact ⟨rfl, by decide⟩
    | some pv => simp [initHandler, hk] at he
  · intro pv hk
    refine ⟨Json.obj
        [("protocolVersion", pv),
         ("capabilities", Json.obj [("tools", Json.arr (yamuToolNames.map Json.str))]),
         ("serverInfo", Json.obj
            [("name", Json.str "YamuServer"), ("version", Json.str "1.0.0")])],
      by simp [initHandler, hk], ?_, ?_, ?_, by decide, by decide⟩
    · simp [jsonLookup]
    · simp [jsonLookup]
    · simp [jsonLookup]

theorem initHandler_contract_witness :
    initHandler (Json.obj []) =
      Except.error { code := -32602, message := "protocolVersion is required" } ∧
    (∃ r, initHandler (Json.obj [("protocolVersion", Json.str "2024-11-05")]) =
       Except.ok r ∧ jsonLookup r "protocolVersion" = some (Json.str "2024-11-05")) := by
  constructor
  · exact (initHandler_contract (Json.obj [])).1 rfl
  · obtain ⟨r, h1, h2, _⟩ :=
      (initHandler_contract (Json.obj [("protocolVersion", Json.str "2024-11-05")])).2.2
        (Json.str "2024-11-05") rfl
    exact ⟨r, h1, h2⟩

/-- The three mutually exclusive long-running operation kinds. -/
inductive OperationKind where
  | refreshAssets
  | compile
  | runTests
deriving DecidableEq

/-- Modelled from the spec: the per-kind inProgress flags of the
OperationState records; the server that holds them is not part of the
repository sources (only its tests are). -/
structure CoordinatorState where
  refreshInProgress : Bool
  compileInProgress : Bool
  testsInProgress : Bool
deriving DecidableEq

/-- Process start state: every kind Idle. -/
def initialCoordinatorState : CoordinatorState :=
  { refreshInProgress := false, compileInProgress := false, testsInProgress := false }

/-- The number of kinds currently in the Running state. -/
def runningCount (s : CoordinatorState) : Nat :=
  (if s.refreshInProgress then 1 else 0) +
  (if s.compileInProgress then 1 else 0) +
  (if s.testsInProgress then 1 else 0)

/-- True when some kind is Running, i.e. the single-threaded executor is busy. -/
def anyRunning (s : CoordinatorState) : Bool :=
  s.refreshInProgress || s.compileInProgress || s.testsInProgress

/-- Sets the inProgress flag of one kind. -/
def setInProgress (s : CoordinatorState) (k : OperationKind) (b : Bool) : CoordinatorState :=
  match k with
  | OperationKind.refreshAssets => { s with refreshInProgress := b }
  | OperationKind.compile => { s with compileInProgress := b }
  | OperationKind.runTests => { s with testsInProgress := b }

/-- Modelled from the spec: the fixed warning message per kind. The spec
fixes the refresh and test texts; it gives none for the compile kind, so
that text is a placeholder no claim depends on. -/
def warningText : OperationKind → String
  | OperationKind.refreshAssets =>
      "Asset refresh already in progress. Please wait for current refresh to complete."
  | OperationKind.runTests =>
      "Tests are already running. Please wait for current test run to complete."
  | OperationKind.compile =>
      "Compilation already in progress. Please wait for current compilation to complete."

/-- Outcome of trying to acquire the executor slot. -/
inductive AcquireOutcome where
  | started
  | alreadyRunning (message : String)
deriving DecidableEq

/-- Modelled from the spec: acquire(kind) atomically transitions Idle to
Running when no kind is running, and otherwise returns immediately, with no
transition, carrying the fixed warning for the requested kind. -/
def acquire (s : CoordinatorState) (k : OperationKind) : CoordinatorState × AcquireOutcome :=
  if anyRunning s then (s, AcquireOutcome.alreadyRunning (warningText k))
  else (setInProgress s k true, AcquireOutcome.started)

/-- Modelled from the spec: release(kind) transitions Running back to Idle. -/
def release (s : CoordinatorState) (k : OperationKind) : CoordinatorState :=
  setInProgress s k false

/-- One serialized coordinator interaction. -/
inductive CoordEvent where
  | acquireReq (k : OperationKind)
  | releaseReq (k : OperationKind)

/-- State transition of one coordinator interaction. -/
def stepCoord (s : CoordinatorState) : CoordEvent → CoordinatorState
  | CoordEvent.acquireReq k => (acquire s k).1
  | CoordEvent.releaseReq k => release s k

/-- The state after a sequence of serialized coordinator interactions. -/
def runCoord (s : CoordinatorState) (events : List CoordEvent) : CoordinatorState :=
  events.foldl stepCoord s

/-- A burst of racing stateful calls: the atomic check-and-set of acquire
serializes them, and each call receives exactly one outcome. -/
def processBurst (s : CoordinatorState) :
    List OperationKind → CoordinatorState × List AcquireOutcome
  | [] => (s, [])
  | k :: ks =>
    let r := acquire s k
    let rest := processBurst r.1 ks
    (rest.1, r.2 :: rest.2)

theorem runningCount_stepCoord_le (s : CoordinatorState) (e : CoordEvent)
    (h : runningCount s ≤ 1) : runningCount (stepCoord s e) ≤ 1 := by
  obtain ⟨a, b, c⟩ := s
  cases e with
  | acquireReq k =>
    cases k <;> revert h <;> cases a <;> cases b <;> cases c <;> decide
  | releaseReq k =>
    cases k <;> revert h <;> cases a <;> cases b <;> cases c <;> decide

theorem runningCount_runCoord_le (events : List CoordEvent) :
    ∀ s : CoordinatorState, runningCount s ≤ 1 →
      runningCount (runCoord s events) ≤ 1 := by
  induction events with
  | nil => intro s h; exact h
  | cons e rest ih =>
    intro s h
    exact ih (stepCoord s e) (runningCount_stepCoord_le s e h)

theorem processBurst_length (ks : List OperationKind) :
    ∀ s : CoordinatorState, (processBurst s ks).2.length = ks.length := by
  induction ks with
  | nil => intro s; rfl
  | cons k rest ih =>
    intro s
    show ((processBurst (acquire s k).1 rest).2).length + 1 = rest.length + 1
    rw [ih]

theorem anyRunning_setInProgress_true (s : CoordinatorState) (k : OperationKind) :
    anyRunning (setInProgress s k true) = true := by
  obtain ⟨a, b, c⟩ := s
  cases k <;> simp [anyRunning, setInProgress]

theorem processBurst_busy (ks : List OperationKind) :
    ∀ s : CoordinatorState, anyRunning s = true →
      processBurst s ks =
        (s, ks.map (fun k => AcquireOutcome.alreadyRunning (warningText k))) := by
  induction ks with
  | nil => intro s _; rfl
  | cons k rest ih =>
    intro s hs
    show (let r := acquire s k
          let done := processBurst r.1 rest
          ((done.1, r.2 :: done.2) : CoordinatorState × List AcquireOutcome)) = _
    simp only [acquire, hs, if_pos]
    rw [ih s hs]
    rfl

/-- C1: concurrently issued stateful calls are serialized by the single
executor slot: every reachable state has at most one kind Running, a burst
of racing acquires answers every request (none dropped), and from the Idle
state exactly the first racing caller observes the Idle to Running
transition while every other caller receives the fixed warning text. -/
theorem coordinator_serializes_concurrent_calls (events : List CoordEvent)
    (s : CoordinatorState) (ks : List OperationKind) (k : OperationKind) :
    runningCount (runCoord initialCoordinatorState events) ≤ 1 ∧
    (processBurst s ks).2.length = ks.length ∧
    (processBurst initialCoordinatorState (k :: ks)).2 =
      AcquireOutcome.started ::
        ks.map (fun k2 => AcquireOutcome.alreadyRunning (warningText k2)) := by
  refine ⟨runningCount_runCoord_le events initialCoordinatorState (by decide),
    processBurst_length ks s, ?_⟩
  show (let r := acquire initialCoordinatorState k
        let rest := processBurst r.1 ks
        ((rest.1, r.2 :: rest.2) : CoordinatorState × List AcquireOutcome)).2 = _
  have hidle : anyRunning initialCoordinatorState = false := by decide
  simp only [acquire, hidle, Bool.false_eq_true, if_false]
  rw [processBurst_busy ks _ (anyRunning_setInProgress_true initialCoordinatorState k)]

/-- A block of MCP tool-call content. -/
structure ContentBlock where
  type : String
  text : String

/-- An MCP tool-call result: a list of content blocks. -/
structure ToolResult where
  content : List ContentBlock

/-- Wraps a text payload in the MCP content-block convention. -/
def toolReplyOfText (t : String) : ToolResult :=
  { content := [{ type := "text", text := t }] }

/-- Modelled from the spec: the refresh_assets tool, start-or-warn; the
warning is delivered as a successful result, and execText abstracts the
Editor outcome text of a started refresh. -/
def refreshAssetsTool (s : CoordinatorState) (execText : String) :
    CoordinatorState × Except RpcError ToolResult :=
  match acquire s OperationKind.refreshAssets with
  | (s1, AcquireOutcome.alreadyRunning msg) => (s1, Except.ok (toolReplyOfText msg))
  | (s1, AcquireOutcome.started) =>
      (release s1 OperationKind.refreshAssets, Except.ok (toolReplyOfText execText))

/-- Modelled from the spec: the run_tests tool, start-or-warn, analogous to
refreshAssetsTool. -/
def runTestsTool (s : CoordinatorState) (execText : String) :
    CoordinatorState × Except RpcError ToolResult :=
  match acquire s OperationKind.runTests with
  | (s1, AcquireOutcome.alreadyRunning msg) => (s1, Except.ok (toolReplyOfText msg))
  | (s1, AcquireOutcome.started) =>
      (release s1 OperationKind.runTests, Except.ok (toolReplyOfText execText))

/-- C3: a stateful tool call that finds an operation already running returns
immediately as a successful result, never a JSON-RPC error, whose text is
the fixed per-kind warning message. -/
theorem already_running_returns_warning_result (s : CoordinatorState)
    (execA execB : String) (h : anyRunning s = true) :
    refreshAssetsTool s execA =
      (s, Except.ok (toolReplyOfText
        "Asset refresh already in progress. Please wait for current refresh to complete.")) ∧
    runTestsTool s execB =
      (s, Except.ok (toolReplyOfText
        "Tests are already running. Please wait for current test run to complete.")) := by
  constructor
  · simp [refreshAssetsTool, acquire, h, warningText]
  · simp [runTestsTool, acquire, h, warningText]

theorem already_running_returns_warning_result_witness :
    refreshAssetsTool ⟨true, false, false⟩ "Asset database refreshed." =
      (⟨true, false, false⟩, Except.ok (toolReplyOfText
        "Asset refresh already in progress. Please wait for current refresh to complete.")) ∧
    runTestsTool ⟨false, false, true⟩ "Test Results:" =
      (⟨false, false, true⟩, Except.ok (toolReplyOfText
        "Tests are already running. Please wait for current test run to complete.")) :=
  ⟨(already_running_returns_warning_result ⟨true, false, false⟩
      "Asset database refreshed." "x" (by decide)).1,
   (already_running_returns_warning_result ⟨false, false, true⟩
      "y" "Test Results:" (by decide)).2⟩

/-- The timeout failure text for compile_and_wait. -/
def compileTimeoutMessage (n : Int) : String :=
  "Compilation timeout after " ++ toString n ++ " seconds"

/-- The timeout failure text for run_tests. -/
def testTimeoutMessage (n : Int) : String :=
  "Test execution timeout after " ++ toString n ++ " seconds"

/-- What a bounded wait produces: the reply, the second at which the caller
got it, and whether the Editor operation was aborted. -/
structure WaitOutcome where
  reply : Except RpcError String
  respondedAt : Nat
  editorOpAborted : Bool

/-- Modelled from the spec: the bounded wait of compile_and_wait, whose
server side is not part of the repository sources. The executor is
abstracted by the optional second at which it completes (none when it never
does) and the text of a finished compile. Non-positive timeouts have an
immediate deadline; on expiry the caller receives a -32603 error carrying
the elapsed bound and the Editor operation is left running, not aborted. -/
def waitForCompile (timeoutSec : Int) (execCompletion : Option Nat)
    (successText : String) : WaitOutcome :=
  let deadline : Nat := timeoutSec.toNat
  match execCompletion with
  | some t =>
    if t ≤ deadline then
      { reply := Except.ok successText, respondedAt := t, editorOpAborted := false }
    else
      { reply := Except.error { code := -32603, message := compileTimeoutMessage timeoutSec },
        respondedAt := deadline, editorOpAborted := false }
  | none =>
      { reply := Except.error { code := -32603, message := compileTimeoutMessage timeoutSec },
        respondedAt := deadline, editorOpAborted := false }

/-- Modelled from the spec: the bounded wait of run_tests, analogous to
waitForCompile with the test-execution timeout text. -/
def waitForRunTests (timeoutSec : Int) (execCompletion : Option Nat)
    (successText : String) : WaitOutcome :=
  let deadline : Nat := timeoutSec.toNat
  match execCompletion with
  | some t =>
    if t ≤ deadline then
      { reply := Except.ok successText, respondedAt := t, editorOpAborted := false }
    else
      { reply := Except.error { code := -32603, message := testTimeoutMessage timeoutSec },
        respondedAt := deadline, editorOpAborted := false }
  | none =>
      { reply := Except.error { code := -32603, message := testTimeoutMessage timeoutSec },
        respondedAt := deadline, editorOpAborted := false }

/-- C2: for every caller-supplied timeout, including non-positive values,
when the executor does not complete within the bound both waits answer
within the deadline with a -32603 error carrying the per-kind timeout
message and do not abort the Editor operation; the compile message for the
timeouts 1 and -1 lowercases to the exact text the tests assert. -/
theorem timeout_expiry_bounded_error (timeoutSec : Int) (execCompletion : Option Nat)
    (sA sB : String)
    (hmiss : ∀ t, execCompletion = some t → timeoutSec.toNat < t) :
    (waitForCompile timeoutSec execCompletion sA).reply =
       Except.error { code := -32603, message := compileTimeoutMessage timeoutSec } ∧
    (waitForCompile timeoutSec execCompletion sA).respondedAt ≤ timeoutSec.toNat ∧
    (waitForCompile timeoutSec execCompletion sA).editorOpAborted = false ∧
    (waitForRunTests timeoutSec execCompletion sB).reply =
       Except.error { code := -32603, message := testTimeoutMessage timeoutSec } ∧
    (waitForRunTests timeoutSec execCompletion sB).editorOpAborted = false ∧
    strContains (strToLower (compileTimeoutMessage 1))
      "compilation timeout after 1 seconds" = true ∧
    strContains (strToLower (compileTimeoutMessage (-1)))
      "compilation timeout after -1 seconds" = true := by
  cases execCompletion with
  | none =>
    refine ⟨rfl, le_refl _, rfl, rfl, rfl, by decide, by decide⟩
  | some t =>
    have ht := hmiss t rfl
    have ht2 : ¬ t ≤ timeoutSec.toNat := by omega
    refine ⟨?_, ?_, ?_, ?_, ?_, by decide, by decide⟩ <;>
      simp [waitForCompile, waitForRunTests, ht2]

theorem timeout_expiry_bounded_error_witness :
    (waitForCompile 1 none "ok").reply =
      Except.error { code := -32603, message := compileTimeoutMessage 1 } ∧
    (waitForRunTests (-1) none "ok").reply =
      Except.error { code := -32603, message := testTimeoutMessage (-1) } := by
  constructor
  · exact (timeout_expiry_bounded_error 1 none "ok" "ok" (by intro t h; cases h)).1
  · exact (timeout_expiry_bounded_error (-1) none "ok" "ok"
      (by intro t h; cases h)).2.2.2.1

/-- A compiler diagnostic as rendered by the server. -/
structure CompileError where
  file : String
  line : Nat
  message : String

/-- One rendered error line in file:line: message form. -/
def renderErrorLine (e : CompileError) : String :=
  e.file ++ ":" ++ toString e.line ++ ": " ++ e.message

/-- Newline-led rendered error lines, one per diagnostic. -/
def renderErrorLines : List CompileError → String
  | [] => ""
  | e :: rest => "\n" ++ renderErrorLine e ++ renderErrorLines rest

/-- Modelled from the spec: rendering of a completed compile_and_wait
result, whose server side is not part of the repository sources: the fixed
success text when no errors were reported, otherwise the error header
followed by one file:line: message line per error. -/
def formatCompileResult (errors : List CompileError) : String :=
  if errors.isEmpty then
    "Compilation completed successfully with no errors."
  else
    "Compilation completed with errors:" ++ renderErrorLines errors

theorem strContains_of_data (hay needle : String) (pre post : List Char)
    (h : hay.data = pre ++ needle.data ++ post) : strContains hay needle = true := by
  unfold strContains
  rw [decide_eq_true_eq]
  exact ⟨pre, post, h.symm⟩

theorem strTake_append_len (a b : String) : strTake (a ++ b) (strLen a) = a := by
  unfold strTake strLen
  rw [String.data_append, List.take_left]

/-- C4: a completed compile renders exactly the fixed success text when
there are no errors; with errors the text begins with the error header; and
with exactly one error the text contains both the header and the file name
of that error. -/
theorem compile_result_text (errors : List CompileError) (e : CompileError) :
    (errors = [] → formatCompileResult errors =
      "Compilation completed successfully with no errors.") ∧
    (errors ≠ [] →
      strTake (formatCompileResult errors)
          (strLen "Compilation completed with errors:") =
        "Compilation completed with errors:") ∧
    strContains (formatCompileResult [e]) "Compilation completed with errors:" = true ∧
    strContains (formatCompileResult [e]) e.file = true := by
  refine ⟨?_, ?_, ?_, ?_⟩
  · intro h
    subst h
    rfl
  · intro h
    have hne : errors.isEmpty = false := by
      cases errors with
      | nil => exact absurd rfl h
      | cons a l => rfl
    show strTake (formatCompileResult errors) _ = _
    rw [formatCompileResult, hne]
    exact strTake_append_len _ _
  · apply strContains_of_data _ _ [] (renderErrorLines [e]).data
    show (formatCompileResult [e]).data = _
    rw [formatCompileResult]
    show ("Compilation completed with errors:" ++ renderErrorLines [e]).data = _
    rw [String.data_append]
    rfl
  · apply strContains_of_data _ _
      ("Compilation completed with errors:".data ++ "\n".data)
      ((":" ++ toString e.line ++ ": " ++ e.message ++ "").data)
    rw [formatCompileResult]
    show ("Compilation completed with errors:" ++ renderErrorLines [e]).data = _
    simp only [renderErrorLines, renderErrorLine, String.data_append, List.append_assoc]

theorem compile_result_text_witness :
    formatCompileResult [] = "Compilation completed successfully with no errors." ∧
    strContains
      (formatCompileResult [{ file := "TestScript.cs", line := 10,
                              message := "CS1002: ; expected" }])
      "TestScript.cs" = true := by
  constructor
  · exact (compile_result_text []
      { file := "x", line := 0, message := "m" }).1 rfl
  · exact (compile_result_text []
      { file := "TestScript.cs", line := 10, message := "CS1002: ; expected" }).2.2.2

/-- Summary of a finished test run as held by the StatusStore. -/
structure TestResultsSummary where
  totalTests : Nat
  passedTests : Nat
  failedTests : Nat
  skippedTests : Nat
  durationMillis : Nat

/-- Modelled from the spec: the process-wide StatusStore, whose server side
is not part of the repository sources: compile, test and editor state with
one writer and many readers. -/
structure StatusStore where
  compileInProgress : Bool
  testsInProgress : Bool
  isPlaying : Bool
  lastCompileTime : String
  compileErrors : List CompileError
  lastTestTime : String
  testResults : Option TestResultsSummary
  testRunId : Option String
  testHasError : Bool
  testErrorMessage : Option String

/-- The compile status view served to callers. -/
structure CompileStatusSnapshot where
  status : String
  isCompiling : Bool
  lastCompileTime : String
  errors : List CompileError

/-- The test status view served to callers. -/
structure TestStatusSnapshot where
  status : String
  isRunning : Bool
  lastTestTime : String
  testResults : Option TestResultsSummary
  testRunId : Option String
  hasError : Bool
  errorMessage : Option String

/-- The editor status view served to callers. -/
structure EditorStatusSnapshot where
  isCompiling : Bool
  isRunningTests : Bool
  isPlaying : Bool

/-- Modelled from the spec: the derived read-only compile view; status is
compiling exactly when the compile operation is in progress. -/
def compileStatusSnapshot (s : StatusStore) : CompileStatusSnapshot :=
  { status := if s.compileInProgress then "compiling" else "idle",
    isCompiling := s.compileInProgress,
    lastCompileTime := s.lastCompileTime,
    errors := s.compileErrors }

/-- Modelled from the spec: the derived read-only test view. -/
def testStatusSnapshot (s : StatusStore) : TestStatusSnapshot :=
  { status := if s.testsInProgress then "running" else "idle",
    isRunning := s.testsInProgress,
    lastTestTime := s.lastTestTime,
    testResults := s.testResults,
    testRunId := s.testRunId,
    hasError := s.testHasError,
    errorMessage := s.testErrorMessage }

/-- Modelled from the spec: the derived read-only editor view; the flags
always equal the corresponding inProgress flags. -/
def editorStatusSnapshot (s : StatusStore) : EditorStatusSnapshot :=
  { isCompiling := s.compileInProgress,
    isRunningTests := s.testsInProgress,
    isPlaying := s.isPlaying }

/-- C6: the status snapshots agree on the in-progress flags: the editor
view equals the compile and test views on isCompiling and isRunningTests,
and within the compile view isCompiling holds exactly when status is
compiling, so an idle status forces isCompiling false. -/
theorem status_snapshots_agree (s : StatusStore) :
    (editorStatusSnapshot s).isCompiling = (compileStatusSnapshot s).isCompiling ∧
    (editorStatusSnapshot s).isRunningTests = (testStatusSnapshot s).isRunning ∧
    ((compileStatusSnapshot s).isCompiling = true ↔
      (compileStatusSnapshot s).status = "compiling") ∧
    ((compileStatusSnapshot s).status = "idle" →
      (compileStatusSnapshot s).isCompiling = false) := by
  refine ⟨rfl, rfl, ?_, ?_⟩
  · cases hc : s.compileInProgress <;> simp [compileStatusSnapshot, hc]
  · cases hc : s.compileInProgress <;> simp [compileStatusSnapshot, hc]

theorem status_snapshots_agree_witness :
    (compileStatusSnapshot
      { compileInProgress := false, testsInProgress := false, isPlaying := false,
        lastCompileTime := "2024-01-01T00:00:00Z", compileErrors := [],
        lastTestTime := "2024-01-01T00:00:00Z", testResults := none,
        testRunId := none, testHasError := false,
        testErrorMessage := none }).isCompiling = false :=
  (status_snapshots_agree _).2.2.2 rfl

/-- An opening brace character as JSON text. -/
def lbrace : String := "\x7b"

/-- A closing brace character as JSON text. -/
def rbrace : String := "\x7d"

/-- A JSON string literal; the snapshots hold no characters needing escapes. -/
def jsonQuote (s : String) : String := "\"" ++ s ++ "\""

/-- A JSON boolean literal. -/
def jsonBool (b : Bool) : String := if b then "true" else "false"

/-- A JSON string-or-null literal. -/
def jsonOptString : Option String → String
  | none => "null"
  | some s => jsonQuote s

/-- Comma-joined fragments. -/
def joinComma : List String → String
  | [] => ""
  | [x] => x
  | x :: rest => x ++ "," ++ joinComma rest

/-- One serialized compiler diagnostic. -/
def serializeCompileError (e : CompileError) : String :=
  lbrace ++ "\"file\":" ++ jsonQuote e.file ++ ",\"line\":" ++ toString e.line ++
    ",\"message\":" ++ jsonQuote e.message ++ rbrace

/-- The serialized compile status snapshot. -/
def serializeCompileStatus (c : CompileStatusSnapshot) : String :=
  lbrace ++ "\"status\":" ++ jsonQuote c.status ++
    ",\"isCompiling\":" ++ jsonBool c.isCompiling ++
    ",\"lastCompileTime\":" ++ jsonQuote c.lastCompileTime ++
    ",\"errors\":[" ++ joinComma (c.errors.map serializeCompileError) ++ "]" ++ rbrace

/-- The serialized test results summary, or null. -/
def serializeTestResults : Option TestResultsSummary → String
  | none => "null"
  | some r =>
      lbrace ++ "\"totalTests\":" ++ toString r.totalTests ++
        ",\"passedTests\":" ++ toString r.passedTests ++
        ",\"failedTests\":" ++ toString r.failedTests ++
        ",\"skippedTests\":" ++ toString r.skippedTests ++
        ",\"durationMillis\":" ++ toString r.durationMillis ++ rbrace

/-- The serialized test status snapshot. -/
def serializeTestStatus (t : TestStatusSnapshot) : String :=
  lbrace ++ "\"status\":" ++ jsonQuote t.status ++
    ",\"isRunning\":" ++ jsonBool t.isRunning ++
    ",\"lastTestTime\":" ++ jsonQuote t.lastTestTime ++
    ",\"testResults\":" ++ serializeTestResults t.testResults ++
    ",\"testRunId\":" ++ jsonOptString t.testRunId ++
    ",\"hasError\":" ++ jsonBool t.hasError ++
    ",\"errorMessage\":" ++ jsonOptString t.errorMessage ++ rbrace

/-- The serialized editor status snapshot. -/
def serializeEditorStatus (e : EditorStatusSnapshot) : String :=
  lbrace ++ "\"isCompiling\":" ++ jsonBool e.isCompiling ++
    ",\"isRunningTests\":" ++ jsonBool e.isRunningTests ++
    ",\"isPlaying\":" ++ jsonBool e.isPlaying ++ rbrace

/-- Modelled from the spec: the compile_status MCP tool, serializing the
snapshot of the shared StatusStore into its text payload. -/
def compileStatusTool (store : StatusStore) : ToolResult :=
  toolReplyOfText (serializeCompileStatus (compileStatusSnapshot store))

/-- Modelled from the spec: the test_status MCP tool. -/
def testStatusTool (store : StatusStore) : ToolResult :=
  toolReplyOfText (serializeTestStatus (testStatusSnapshot store))

/-- Modelled from the spec: the editor_status MCP tool. -/
def editorStatusTool (store : StatusStore) : ToolResult :=
  toolReplyOfText (serializeEditorStatus (editorStatusSnapshot store))

/-- An HTTP response of the status mirror. -/
structure HttpResponse where
  statusCode : Nat
  contentType : String
  body : String

/-- Modelled from the spec: the /compile-status HTTP mirror endpoint,
reading the same StatusStore. -/
def httpCompileStatusEndpoint (store : StatusStore) : HttpResponse :=
  { statusCode := 200, contentType := "application/json",
    body := serializeCompileStatus (compileStatusSnapshot store) }

/-- Modelled from the spec: the /test-status HTTP mirror endpoint. -/
def httpTestStatusEndpoint (store : StatusStore) : HttpResponse :=
  { statusCode := 200, contentType := "application/json",
    body := serializeTestStatus (testStatusSnapshot store) }

/-- Modelled from the spec: the /editor-status HTTP mirror endpoint. -/
def httpEditorStatusEndpoint (store : StatusStore) : HttpResponse :=
  { statusCode := 200, contentType := "application/json",
    body := serializeEditorStatus (editorStatusSnapshot store) }

/-- The text of the first content block of a tool result. -/
def firstText (r : ToolResult) : Option String :=
  match r.content with
  | [] => none
  | c :: _ => some c.text

/-- C5: sampled with no intervening state change, each status tool text
payload is byte-identical to the JSON body of the corresponding HTTP mirror
endpoint, both being serialized from the same StatusStore snapshot. -/
theorem status_tool_matches_http_mirror (store : StatusStore) :
    firstText (compileStatusTool store) = some (httpCompileStatusEndpoint store).body ∧
    firstText (testStatusTool store) = some (httpTestStatusEndpoint store).body ∧
    firstText (editorStatusTool store) = some (httpEditorStatusEndpoint store).body :=
  ⟨rfl, rfl, rfl⟩

/-- The default response character budget of the truncator. -/
def defaultResponseCharacterLimit : Nat := 25000

/-- Modelled from the spec: the ResponseTruncator, whose server side is not
part of the repository sources: with truncation disabled or the text within
budget it returns the text unchanged, and otherwise the prefix of the text
up to the limit with the configured truncation marker appended; it runs on
the content string value before JSON encoding, leaving the enclosing
message framing intact. -/
def truncateResponse (limit : Nat) (enableTruncation : Bool)
    (truncationMessage : String) (text : String) : String :=
  if enableTruncation = false then text
  else if strLen text ≤ limit then text
  else strTake text limit ++ truncationMessage

theorem strLen_append (a b : String) : strLen (a ++ b) = strLen a + strLen b := by
  unfold strLen
  rw [String.data_append, List.length_append]

theorem strLen_strTake (s : String) (n : Nat) :
    strLen (strTake s n) = min n (strLen s) := by
  unfold strLen strTake
  exact List.length_take n s.data

theorem strTake_strTake (s : String) (m n : Nat) (h : n ≤ m) :
    strTake (strTake s m) n = strTake s n := by
  unfold strTake
  rw [List.take_take]
  rw [Nat.min_eq_left h]

theorem strTake_append_of_le (a b : String) (n : Nat) (h : n ≤ strLen a) :
    strTake (a ++ b) n = strTake a n := by
  unfold strTake
  rw [String.data_append, List.take_append_of_le_length h]

/-- C7: the truncator returns text within the limit unchanged, otherwise a
prefix of the text up to the limit with the marker appended; the output
never exceeds the limit plus the marker, agrees with the original on the
first limit characters (so content past the limit is absent), and preserves
any leading header that fits inside the limit. -/
theorem truncation_contract (limit : Nat) (enable : Bool)
    (marker text header : String) :
    (strLen text ≤ limit → truncateResponse limit enable marker text = text) ∧
    (enable = false → truncateResponse limit enable marker text = text) ∧
    (enable = true → limit < strLen text →
      truncateResponse limit enable marker text = strTake text limit ++ marker) ∧
    (strLen (truncateResponse limit true marker text) ≤ limit + strLen marker ∨
      truncateResponse limit true marker text = text) ∧
    (strTake (truncateResponse limit true marker text) limit = strTake text limit) ∧
    (strLen header ≤ limit → strTake text (strLen header) = header →
      strTake (truncateResponse limit enable marker text) (strLen header) = header) := by
  have htr : limit < strLen text →
      truncateResponse limit true marker text = strTake text limit ++ marker := by
    intro hlt
    unfold truncateResponse
    rw [if_neg (by simp), if_neg (by omega)]
  have hid : strLen text ≤ limit → truncateResponse limit true marker text = text := by
    intro hle
    unfold truncateResponse
    rw [if_neg (by simp), if_pos hle]
  refine ⟨?_, ?_, ?_, ?_, ?_, ?_⟩
  · intro hle
    cases enable with
    | false => rfl
    | true => exact hid hle
  · intro he
    subst he
    rfl
  · intro he hlt
    subst he
    exact htr hlt
  · by_cases hlt : limit < strLen text
    · left
      rw [htr hlt, strLen_append, strLen_strTake]
      omega
    · right
      exact hid (by omega)
  · by_cases hlt : limit < strLen text
    · rw [htr hlt]
      rw [strTake_append_of_le _ _ _ (by rw [strLen_strTake]; omega)]
      exact strTake_strTake text limit limit (le_refl limit)
    · rw [hid (by omega)]
  · intro hh hhead
    cases enable with
    | false => exact hhead
    | true =>
      by_cases hlt : limit < strLen text
      · rw [htr hlt]
        rw [strTake_append_of_le _ _ _ (by rw [strLen_strTake]; omega)]
        rw [strTake_strTake _ _ _ hh]
        exact hhead
      · rw [hid (by omega)]
        exact hhead

theorem truncation_contract_witness :
    truncateResponse 5 true "<cut>" "abc" = "abc" ∧
    truncateResponse 5 true "<cut>" "abcdefgh" = strTake "abcdefgh" 5 ++ "<cut>" ∧
    strTake (truncateResponse 20 true "<cut>" "Test Results:\nTotal: 1")
      (strLen "Test Results:") = "Test Results:" := by
  refine ⟨?_, ?_, ?_⟩
  · exact (truncation_contract 5 true "<cut>" "abc" "").1 (by decide)
  · exact (truncation_contract 5 true "<cut>" "abcdefgh" "").2.2.1 rfl (by decide)
  · exact (truncation_contract 20 true "<cut>" "Test Results:\nTotal: 1"
      "Test Results:").2.2.2.2.2 (by decide) (by decide)

/-- Outcome of one _send_request call: a response, or the message of the
raised RuntimeError. -/
inductive SendOutcome where
  | ok (resp : Json)
  | fail (msg : String)

/-- The -32603 message fragments mcp_client.py treats as transient. -/
def retryableErrors : List String :=
  ["HTTP request failed", "Test execution failed to start", "Tool execution failed"]

/-- True when an error message matches one of the transient fragments. -/
def isRetryableErr (e : String) : Bool :=
  retryableErrors.any (fun t => strContains e t)

/-- The terminal message after exhausting retries on a test-runner start
failure. -/
def testRunnerTerminalMessage (maxRetries : Nat) : String :=
  "Unity Test Runner failed to initialize after " ++ toString maxRetries ++
    " attempts. Check Unity Test Runner setup."

/-- The terminal message after exhausting retries on the other transient
failures. -/
def unityStuckTerminalMessage (maxRetries : Nat) : String :=
  "Unity server timeout after " ++ toString maxRetries ++
    " attempts. Unity may be stuck in processing."

/-- Embedding of MCPClient._send_unity_request_with_retry (mcp_client.py).
attempts gives the outcome of the underlying _send_request on each loop
iteration, and fuel counts the iterations remaining in the Python range
loop, so the top-level call passes fuel = maxRetries and attempt = 0. The
result pairs the final outcome (error means a raised RuntimeError message)
with the number of _send_request calls made. -/
def retryGo (attempts : Nat → SendOutcome) (maxRetries : Nat) :
    Nat → Nat → Except String Json × Nat
  | 0, _ => (Except.error "Unexpected retry loop exit", 0)
  | fuel + 1, attempt =>
    match attempts attempt with
    | SendOutcome.ok r => (Except.ok r, 1)
    | SendOutcome.fail e =>
      if strContains e "-32603" then
        if strContains (strToLower e) "timeout" then
          (Except.error e, 1)
        else if isRetryableErr e then
          if attempt < maxRetries - 1 then
            let rest := retryGo attempts maxRetries fuel (attempt + 1)
            (rest.1, rest.2 + 1)
          else if strContains e "Test execution failed to start" then
            (Except.error (testRunnerTerminalMessage maxRetries), 1)
          else
            (Except.error (unityStuckTerminalMessage maxRetries), 1)
        else (Except.error e, 1)
      else (Except.error e, 1)

/-- The retry wrapper entered at the first loop iteration. -/
def sendUnityRequestWithRetry (attempts : Nat → SendOutcome) (maxRetries : Nat) :
    Except String Json × Nat :=
  retryGo attempts maxRetries maxRetries 0

theorem strContains_toLower_fixpoint (e needle : String)
    (hfix : strToLower needle = needle) (h : strContains e needle = true) :
    strContains (strToLower e) needle = true := by
  unfold strContains at h ⊢
  rw [decide_eq_true_eq] at h ⊢
  have hmap := List.IsInfix.map Char.toLower h
  have hdata : needle.data.map Char.toLower = needle.data := by
    have := congrArg String.data hfix
    exact this
  rw [hdata] at hmap
  exact hmap

theorem retryGo_calls_le (attempts : Nat → SendOutcome) (maxRetries : Nat) :
    ∀ fuel attempt, (retryGo attempts maxRetries fuel attempt).2 ≤ fuel := by
  intro fuel
  induction fuel with
  | zero => intro attempt; simp [retryGo]
  | succ f ih =>
    intro attempt
    cases hfa : attempts attempt with
    | ok r => simp [retryGo, hfa]
    | fail msg =>
      by_cases h1 : strContains msg "-32603" = true
      · by_cases h2 : strContains (strToLower msg) "timeout" = true
        · simp [retryGo, hfa, h1, h2]
        · by_cases h3 : isRetryableErr msg = true
          · by_cases h4 : attempt < maxRetries - 1
            · have hrec := ih (attempt + 1)
              have h2f : strContains (strToLower msg) "timeout" = false :=
                Bool.eq_false_iff.mpr h2
              simp [retryGo, hfa, h1, h2f, h3, h4]
              omega
            · by_cases h5 : strContains msg "Test execution failed to start" = true
              · simp [retryGo, hfa, h1, h2, h3, h4, h5]
              · simp [retryGo, hfa, h1, h2, h3, h4, h5]
          · simp [retryGo, hfa, h1, h2, h3]
      · simp [retryGo, hfa, h1]

theorem retryGo_retry_needs_transient (attempts : Nat → SendOutcome)
    (maxRetries : Nat) (fuel attempt : Nat)
    (hcount : 2 ≤ (retryGo attempts maxRetries fuel attempt).2) :
    ∃ msg, attempts attempt = SendOutcome.fail msg ∧
      strContains msg "-32603" = true ∧
      strContains (strToLower msg) "timeout" = false ∧
      isRetryableErr msg = true := by
  cases fuel with
  | zero => simp [retryGo] at hcount
  | succ f =>
    cases hfa : attempts attempt with
    | ok r => simp [retryGo, hfa] at hcount
    | fail msg =>
      by_cases h1 : strContains msg "-32603" = true
      · by_cases h2 : strContains (strToLower msg) "timeout" = true
        · simp [retryGo, hfa, h1, h2] at hcount
        · by_cases h3 : isRetryableErr msg = true
          · exact ⟨msg, rfl, h1, Bool.eq_false_iff.mpr h2, h3⟩
          · simp [retryGo, hfa, h1, h2, h3] at hcount
      · simp [retryGo, hfa, h1] at hcount

theorem retryGo_terminal_testrunner (attempts : Nat → SendOutcome) (maxRetries : Nat)
    (hall : ∀ i, i < maxRetries →
       ∃ msg, attempts i = SendOutcome.fail msg ∧
         strContains msg "-32603" = true ∧
         strContains (strToLower msg) "timeout" = false ∧
         strContains msg "Test execution failed to start" = true) :
    ∀ fuel attempt, fuel = maxRetries - attempt → attempt < maxRetries →
      (retryGo attempts maxRetries fuel attempt).1 =
        Except.error (testRunnerTerminalMessage maxRetries) := by
  intro fuel
  induction fuel with
  | zero => intro attempt hfe hlt; omega
  | succ f ih =>
    intro attempt hfe hlt
    obtain ⟨msg, hfa, h1, h2, h5⟩ := hall attempt hlt
    have h3 : isRetryableErr msg = true := by
      simp [isRetryableErr, retryableErrors, h5]
    by_cases h4 : attempt < maxRetries - 1
    · have hrec := ih (attempt + 1) (by omega) (by omega)
      simp [retryGo, hfa, h1, h2, h3, h4, hrec]
    · simp [retryGo, hfa, h1, h2, h3, h4, h5]

/-- C9: the retry wrapper re-raises immediately, after a single send, every
-32603 error containing "timeout" and every error not containing -32603; a
retry happens only for a -32603 error matching one of the fixed transient
fragments; at most maxRetries sends are made; and when every attempt fails
with a transient -32603 test-runner start failure the wrapper raises the
fixed terminal Unity Test Runner message. -/
theorem retry_wrapper_contract (attempts : Nat → SendOutcome) (maxRetries : Nat)
    (e : String) :
    (0 < maxRetries → attempts 0 = SendOutcome.fail e →
       strContains e "-32603" = true → strContains e "timeout" = true →
       sendUnityRequestWithRetry attempts maxRetries = (Except.error e, 1)) ∧
    (0 < maxRetries → attempts 0 = SendOutcome.fail e →
       strContains e "-32603" = false →
       sendUnityRequestWithRetry attempts maxRetries = (Except.error e, 1)) ∧
    (∀ fuel attempt, 2 ≤ (retryGo attempts maxRetries fuel attempt).2 →
       ∃ msg, attempts attempt = SendOutcome.fail msg ∧
         strContains msg "-32603" = true ∧
         strContains (strToLower msg) "timeout" = false ∧
         isRetryableErr msg = true) ∧
    (sendUnityRequestWithRetry attempts maxRetries).2 ≤ maxRetries ∧
    ((∀ i, i < maxRetries →
        ∃ msg, attempts i = SendOutcome.fail msg ∧
          strContains msg "-32603" = true ∧
          strContains (strToLower msg) "timeout" = false ∧
          strContains msg "Test execution failed to start" = true) →
      0 < maxRetries →
      (sendUnityRequestWithRetry attempts maxRetries).1 =
        Except.error (testRunnerTerminalMessage maxRetries)) := by
  refine ⟨?_, ?_, retryGo_retry_needs_transient attempts maxRetries,
    retryGo_calls_le attempts maxRetries maxRetries 0, ?_⟩
  · intro hpos hfa h1 htime
    have h2 : strContains (strToLower e) "timeout" = true :=
      strContains_toLower_fixpoint e "timeout" rfl htime
    cases maxRetries with
    | zero => omega
    | succ m =>
      show retryGo attempts (m + 1) (m + 1) 0 = (Except.error e, 1)
      simp [retryGo, hfa, h1, h2]
  · intro hpos hfa h1
    cases maxRetries with
    | zero => omega
    | succ m =>
      show retryGo attempts (m + 1) (m + 1) 0 = (Except.error e, 1)
      simp [retryGo, hfa, h1]
  · intro hall hpos
    exact retryGo_terminal_testrunner attempts maxRetries hall maxRetries 0
      (by omega) hpos

theorem retry_wrapper_contract_witness :
    sendUnityRequestWithRetry
        (fun _ => SendOutcome.fail
          "MCP error: -32603 Compilation timeout after 1 seconds") 5 =
      (Except.error "MCP error: -32603 Compilation timeout after 1 seconds", 1) ∧
    (sendUnityRequestWithRetry
        (fun _ => SendOutcome.fail
          "MCP error: -32603 Test execution failed to start") 2).1 =
      Except.error (testRunnerTerminalMessage 2) := by
  constructor
  · exact (retry_wrapper_contract
      (fun _ => SendOutcome.fail
        "MCP error: -32603 Compilation timeout after 1 seconds") 5
      "MCP error: -32603 Compilation timeout after 1 seconds").1
      (by decide) rfl (by decide) (by decide)
  · exact (retry_wrapper_contract
      (fun _ => SendOutcome.fail
        "MCP error: -32603 Test execution failed to start") 2
      "").2.2.2.2
      (by
        intro i hi
        exact ⟨"MCP error: -32603 Test execution failed to start", rfl,
          by decide, by decide, by decide⟩)
      (by decide)
